import Mathlib

/-!
Verification of the payment-hams intake pipeline (`src/api/index.py`).

The Python payload values (JSON-like data) are shallowly embedded as the
tagged type `Value`; each Python helper of the source file is translated to
a Lean function of the same name (`sanitize_input`, `detect_card_type`,
`mask_sensitive_data`, `send_to_telegram`, `generate_fake_transaction_id`,
`process_payment`).  Code that can raise a Python exception is modelled
with `Except Unit`; the ambient effects of the route handler (the clock,
`random`, `request.remote_addr`, `request.method` and the network) are
passed explicitly as an `Oracles` record.
-/

namespace PaymentHams

/-- JSON-like Python values: strings, ints, booleans, None, lists and
(insertion-ordered) dicts with string keys. -/
inductive Value where
  | str : String → Value
  | int : Int → Value
  | bool : Bool → Value
  | null : Value
  | list : List Value → Value
  | dict : List (String × Value) → Value

/-- Character-wise replacement of the single character `c` by the string
`r`; models Python `str.replace` for a one-character pattern. -/
def replList (c : Char) (r : List Char) : List Char → List Char
  | [] => []
  | x :: xs => (if x = c then r else [x]) ++ replList c r xs

/-- Models `input_data.replace('<', '&lt;').replace('>', '&gt;')`
(line 38 of the source). -/
def sanitizeStr (s : String) : String :=
  String.mk (replList '>' ['&','g','t',';'] (replList '<' ['&','l','t',';'] s.data))

mutual
/-- `sanitize_input` (lines 35-43): escape `<` and `>` in strings, recurse
into dict values (keys untouched) and list elements, pass anything else
through unchanged. -/
def sanitize_input : Value → Value
  | .str s => .str (sanitizeStr s)
  | .int n => .int n
  | .bool b => .bool b
  | .null => .null
  | .dict l => .dict (sanitizeDict l)
  | .list l => .list (sanitizeList l)

/-- The dict comprehension `{k: sanitize_input(v) for k, v in ...}`. -/
def sanitizeDict : List (String × Value) → List (String × Value)
  | [] => []
  | (k, v) :: xs => (k, sanitize_input v) :: sanitizeDict xs

/-- The list comprehension `[sanitize_input(item) for item in ...]`. -/
def sanitizeList : List Value → List Value
  | [] => []
  | x :: xs => sanitize_input x :: sanitizeList xs
end

/-- Python `str.lower` (ASCII). -/
def pyLower (s : String) : String := String.mk (s.data.map Char.toLower)

/-- Python `str.upper` (ASCII). -/
def pyUpper (s : String) : String := String.mk (s.data.map Char.toUpper)

/-- Python `needle in hay` on strings (substring containment). -/
def containsSub (needle hay : List Char) : Bool :=
  (List.range (hay.length + 1)).any fun i => needle.isPrefixOf (hay.drop i)

/-- Decimal digits of a natural number, most significant first;
models the rendering Python `str` applies to a non-negative int. -/
def natDigits (n : Nat) : List Char :=
  if _h : n < 10 then [Nat.digitChar n]
  else natDigits (n / 10) ++ [Nat.digitChar (n % 10)]
decreasing_by exact Nat.div_lt_self (by omega) (by omega)

/-- Python `str` of a non-negative int. -/
def natRepr (n : Nat) : String := String.mk (natDigits n)

/-- Python `str` of an int. -/
def intRepr : Int → String
  | .ofNat n => natRepr n
  | .negSucc n => "-" ++ natRepr (n + 1)

/-- `", ".join(...)`, used to model Python's rendering of lists/dicts. -/
def joinComma : List String → String
  | [] => ""
  | [x] => x
  | x :: xs => x ++ ", " ++ joinComma xs

mutual
/-- Python `repr` of a `Value` (as used inside rendered containers);
string escaping inside `repr` is not modelled beyond quoting. -/
def pyRepr : Value → String
  | .str s => "'" ++ s ++ "'"
  | .int n => intRepr n
  | .bool b => if b then "True" else "False"
  | .null => "None"
  | .list l => "[" ++ joinComma (pyReprList l) ++ "]"
  | .dict l => "\x7b" ++ joinComma (pyReprDict l) ++ "\x7d"

def pyReprList : List Value → List String
  | [] => []
  | x :: xs => pyRepr x :: pyReprList xs

def pyReprDict : List (String × Value) → List String
  | [] => []
  | (k, v) :: xs => ("'" ++ k ++ "': " ++ pyRepr v) :: pyReprDict xs
end

/-- Python `str` of a `Value`, as interpolated by an f-string. -/
def pyStr : Value → String
  | .str s => s
  | .int n => intRepr n
  | .bool b => if b then "True" else "False"
  | .null => "None"
  | .list l => "[" ++ joinComma (pyReprList l) ++ "]"
  | .dict l => "\x7b" ++ joinComma (pyReprDict l) ++ "\x7d"

/-! ## Classifier (`detect_card_type`, lines 67-98) -/

/-- Numeric value of a decimal digit character. -/
def dv (c : Char) : Nat := c.toNat - 48

/-- `int(card_number[:n])` for a digit string. -/
def prefVal (l : List Char) (n : Nat) : Nat :=
  (l.take n).foldl (fun a c => a * 10 + dv c) 0

/-- The trailing `if len(card_number) >= 4:` block (lines 91-96), reached
when neither the Visa test nor the two-digit chain returned. -/
def discoverStep (l : List Char) : String :=
  if 4 ≤ l.length then
    let ff := prefVal l 4
    if ff = 6011 ∨ (644 ≤ ff ∧ ff ≤ 649) ∨ prefVal l 2 = 65 then "Discover"
    else if 2221 ≤ ff ∧ ff ≤ 2720 then "Mastercard"
    else "Unknown"
  else "Unknown"

/-- The branch cascade of `detect_card_type` (lines 79-98) on the stripped
all-digit string. -/
def detectDigits (l : List Char) : String :=
  if 1 ≤ l.length ∧ l.headD ' ' = '4' then "Visa"
  else if 2 ≤ l.length then
    let ft := prefVal l 2
    if 51 ≤ ft ∧ ft ≤ 55 then "Mastercard"
    else if ft = 34 ∨ ft = 37 then "American Express"
    else if ft = 36 ∨ ft = 38 ∨ ft = 39 ∨
        (4 ≤ l.length ∧ 300 ≤ prefVal l 3 ∧ prefVal l 3 ≤ 305) then "Diners Club"
    else if ft = 35 then "JCB"
    else discoverStep l
  else discoverStep l

/-- `detect_card_type` (lines 67-98): non-strings and the empty string map
to Unknown, spaces are removed, any remaining non-digit maps to Unknown,
then the prefix cascade decides. -/
def detect_card_type : Value → String
  | .str s =>
    if s.data.isEmpty then "Unknown"
    else
      let t := s.data.filter fun c => c != ' '
      if !t.isEmpty && t.all Char.isDigit then detectDigits t else "Unknown"
  | _ => "Unknown"

/-- The brand tags of the specification (§3 ClassificationResult). -/
inductive CardTag where
  | VISA | AMEX | MASTERCARD | DISCOVER | JCB | DINERS | UNKNOWN
deriving DecidableEq

/-- Modelled from the spec (§4.2, decision order 1-7) for the refinement
claim: the 7-rule ordered decision table on the digit string, first match
wins. -/
def specClassifyDigits (l : List Char) : CardTag :=
  if l.headD ' ' = '4' then .VISA
  else if prefVal l 2 = 34 ∨ prefVal l 2 = 37 then .AMEX
  else if (51 ≤ prefVal l 2 ∧ prefVal l 2 ≤ 55) ∨
      (2221 ≤ prefVal l 4 ∧ prefVal l 4 ≤ 2720) then .MASTERCARD
  else if prefVal l 4 = 6011 ∨ (644 ≤ prefVal l 4 ∧ prefVal l 4 ≤ 649) ∨
      prefVal l 2 = 65 then .DISCOVER
  else if prefVal l 2 = 35 then .JCB
  else if prefVal l 2 = 36 ∨ prefVal l 2 = 38 ∨ prefVal l 2 = 39 ∨
      (300 ≤ prefVal l 3 ∧ prefVal l 3 ≤ 305) then .DINERS
  else .UNKNOWN

/-- Modelled from the spec (§4.2 preprocessing): strip all non-digits,
return UNKNOWN below 12 digits, else run the decision table. -/
def specClassify (s : String) : CardTag :=
  let digits := s.data.filter Char.isDigit
  if digits.length < 12 then .UNKNOWN else specClassifyDigits digits

/-- The brand strings the source returns, per spec tag. -/
def tagName : CardTag → String
  | .VISA => "Visa"
  | .AMEX => "American Express"
  | .MASTERCARD => "Mastercard"
  | .DISCOVER => "Discover"
  | .JCB => "JCB"
  | .DINERS => "Diners Club"
  | .UNKNOWN => "Unknown"

/-- `detectDigits` as a function of the numeric values of the four leading
digits, valid for inputs of length ≥ 4 (every length guard then holds). -/
def codeTag4 (a b c d : Nat) : String :=
  if a = 4 then "Visa"
  else
    let ft := 10 * a + b
    if 51 ≤ ft ∧ ft ≤ 55 then "Mastercard"
    else if ft = 34 ∨ ft = 37 then "American Express"
    else if ft = 36 ∨ ft = 38 ∨ ft = 39 ∨
        (300 ≤ 100 * a + 10 * b + c ∧ 100 * a + 10 * b + c ≤ 305) then "Diners Club"
    else if ft = 35 then "JCB"
    else
      let ff := 1000 * a + 100 * b + 10 * c + d
      if ff = 6011 ∨ (644 ≤ ff ∧ ff ≤ 649) ∨ ft = 65 then "Discover"
      else if 2221 ≤ ff ∧ ff ≤ 2720 then "Mastercard"
      else "Unknown"

/-- `specClassifyDigits` as a function of the numeric values of the four
leading digits. -/
def specTag4 (a b c d : Nat) : CardTag :=
  if a = 4 then .VISA
  else if 10 * a + b = 34 ∨ 10 * a + b = 37 then .AMEX
  else if (51 ≤ 10 * a + b ∧ 10 * a + b ≤ 55) ∨
      (2221 ≤ 1000 * a + 100 * b + 10 * c + d ∧ 1000 * a + 100 * b + 10 * c + d ≤ 2720) then
    .MASTERCARD
  else if 1000 * a + 100 * b + 10 * c + d = 6011 ∨
      (644 ≤ 1000 * a + 100 * b + 10 * c + d ∧ 1000 * a + 100 * b + 10 * c + d ≤ 649) ∨
      10 * a + b = 65 then .DISCOVER
  else if 10 * a + b = 35 then .JCB
  else if 10 * a + b = 36 ∨ 10 * a + b = 38 ∨ 10 * a + b = 39 ∨
      (300 ≤ 100 * a + 10 * b + c ∧ 100 * a + 10 * b + c ≤ 305) then .DINERS
  else .UNKNOWN

/-! ## Redactor (`mask_sensitive_data`, lines 100-119) -/

/-- Python truthiness of a `Value`. -/
def pyTruthy : Value → Bool
  | .str s => !s.data.isEmpty
  | .int n => n != 0
  | .bool b => b
  | .null => false
  | .list l => !l.isEmpty
  | .dict l => !l.isEmpty

/-- Python `len`: defined on strings, lists and dicts, raises `TypeError`
elsewhere. -/
def pyLen : Value → Except Unit Nat
  | .str s => .ok s.length
  | .list l => .ok l.length
  | .dict l => .ok l.length
  | _ => .error ()

/-- Python `value[-4:]`: defined on strings and lists, raises `TypeError`
elsewhere (in particular on dicts). -/
def pySliceLast4 : Value → Except Unit Value
  | .str s => .ok (.str (String.mk (s.data.drop (s.data.length - 4))))
  | .list l => .ok (.list (l.drop (l.length - 4)))
  | _ => .error ()

mutual
/-- `mask_sensitive_data` (lines 100-119).  The per-key branch logic of
the source's loop body (lines 104-115) is inlined in `maskDict`'s cons
case, exactly as it is inline in the source; the
`f"****-****-****-{value[-4:]}"` branch evaluates `len(value)` and
`value[-4:]`, either of which raises `TypeError` on unsupported value
types — `Except` propagates that to the caller. -/
def mask_sensitive_data : Value → Except Unit Value
  | .dict l =>
    match maskDict l with
    | .error u => .error u
    | .ok l' => .ok (.dict l')
  | .list l =>
    match maskList l with
    | .error u => .error u
    | .ok l' => .ok (.list l')
  | .str s => .ok (.str s)
  | .int n => .ok (.int n)
  | .bool b => .ok (.bool b)
  | .null => .ok .null

/-- The key loop (lines 103-115): one masked entry per key, in order. -/
def maskDict : List (String × Value) → Except Unit (List (String × Value))
  | [] => .ok []
  | (k, v) :: xs =>
    let lk := pyLower k
    let entry : Except Unit (String × Value) :=
      if containsSub "card".data lk.data || containsSub "number".data lk.data then
        if pyTruthy v then
          match pyLen v with
          | .error u => .error u
          | .ok n =>
            if 4 < n then
              match pySliceLast4 v with
              | .error u => .error u
              | .ok s4 => .ok (k, .str ("****-****-****-" ++ pyStr s4))
            else .ok (k, .str "****")
        else .ok (k, .str "****")
      else if containsSub "cvv".data lk.data || containsSub "cvc".data lk.data then
        .ok (k, .str "***")
      else if containsSub "exp".data lk.data then
        .ok (k, .str "**/**")
      else if containsSub "password".data lk.data || containsSub "pass".data lk.data then
        .ok (k, .str "********")
      else
        match mask_sensitive_data v with
        | .error u => .error u
        | .ok v' => .ok (k, v')
    match entry with
    | .error u => .error u
    | .ok e =>
      match maskDict xs with
      | .error u => .error u
      | .ok rest => .ok (e :: rest)

/-- `[mask_sensitive_data(item) for item in data]` (line 118). -/
def maskList : List Value → Except Unit (List Value)
  | [] => .ok []
  | x :: xs =>
    match mask_sensitive_data x with
    | .error u => .error u
    | .ok y =>
      match maskList xs with
      | .error u => .error u
      | .ok rest => .ok (y :: rest)
end

/-- One iteration of the key loop (lines 104-115), as a standalone
function; definitionally equal to the inlined `entry` of `maskDict`. -/
def maskEntry (k : String) (v : Value) : Except Unit (String × Value) :=
  let lk := pyLower k
  if containsSub "card".data lk.data || containsSub "number".data lk.data then
    if pyTruthy v then
      match pyLen v with
      | .error u => .error u
      | .ok n =>
        if 4 < n then
          match pySliceLast4 v with
          | .error u => .error u
          | .ok s4 => .ok (k, .str ("****-****-****-" ++ pyStr s4))
        else .ok (k, .str "****")
    else .ok (k, .str "****")
  else if containsSub "cvv".data lk.data || containsSub "cvc".data lk.data then
    .ok (k, .str "***")
  else if containsSub "exp".data lk.data then
    .ok (k, .str "**/**")
  else if containsSub "password".data lk.data || containsSub "pass".data lk.data then
    .ok (k, .str "********")
  else
    match mask_sensitive_data v with
    | .error u => .error u
    | .ok v' => .ok (k, v')

/-! ## Composer (the f-string of lines 149-188) -/

/-- Concatenation of rendered lines. -/
def strCat (l : List String) : String := l.foldr (· ++ ·) ""

/-- `d.get(k, dflt) if isinstance(d, dict) else dflt`, the access pattern
used throughout `process_payment`. -/
def getD (d : Value) (k : String) (dflt : Value) : Value :=
  match d with
  | .dict l => (l.lookup k).getD dflt
  | _ => dflt

/-- The user-info block (lines 161-165): one line per key/value pair of a
dict, or a single fallback line otherwise. -/
def userInfoBlock : Value → String
  | .dict l => strCat (l.map fun kv => "🔹 " ++ kv.1 ++ ": <code>" ++ pyStr kv.2 ++ "</code>\n")
  | v => "🔹 User Info: <code>" ++ pyStr v ++ "</code>\n"

/-- The method-specific payment-details block (lines 169-186). -/
def paymentBlock (payment_method : String) (payment_details : Value) : String :=
  if payment_method = "card" then
    let card_number := getD payment_details "card_number" (.str "")
    "\n🔸 Card Number: <code>" ++ pyStr card_number
      ++ "</code>\n🔸 Card Type: <code>" ++ detect_card_type card_number
      ++ "</code>\n🔸 Expiry: <code>" ++ pyStr (getD payment_details "expiry" (.str "N/A"))
      ++ "</code>\n🔸 CVV: <code>" ++ pyStr (getD payment_details "cvv" (.str "N/A"))
      ++ "</code>\n🔸 Name: <code>" ++ pyStr (getD payment_details "name" (.str "N/A"))
      ++ "</code>\n"
  else if payment_method = "paypal" then
    "\n🔸 PayPal Email: <code>" ++ pyStr (getD payment_details "email" (.str "N/A"))
      ++ "</code>\n"
  else if payment_method = "crypto" then
    "\n🔸 Crypto Type: <code>" ++ pyStr (getD payment_details "crypto_type" (.str "N/A"))
      ++ "</code>\n🔸 Wallet Address: <code>" ++ pyStr (getD payment_details "wallet" (.str "N/A"))
      ++ "</code>\n"
  else ""

/-- The full Telegram message (lines 149-188). -/
def composeMessage (amount : Value) (payment_method : String) (ip_address timestamp reqMethod : String)
    (user_info payment_details : Value) : String :=
  "\n<b>🚨 NEW DONATION ATTEMPT 🚨</b>\n\n<b>Basic Info:</b>\n💰 Amount: <code>$"
    ++ pyStr amount
    ++ "</code>\n💳 Method: <code>" ++ pyUpper payment_method
    ++ "</code>\n🌐 IP: <code>" ++ ip_address
    ++ "</code>\n🕒 Time: <code>" ++ timestamp
    ++ "</code>\n📤 Method: <code>" ++ reqMethod
    ++ "</code>\n\n<b>User Info:</b>\n"
    ++ userInfoBlock user_info
    ++ "\n<b>Payment Details:</b>\n"
    ++ paymentBlock payment_method payment_details
    ++ "\n<b>⚠️ THIS IS JUST A RECORD - NO REAL PAYMENT WAS PROCESSED ⚠️</b>"

/-! ## Notifier (`send_to_telegram`, lines 45-59) -/

/-- The request body posted to the Telegram API. -/
structure TgPayload where
  chat_id : String
  text : String
  parse_mode : String

/-- Result of the single outbound `requests.post`: a 2xx status, a non-2xx
status (which `raise_for_status` turns into an exception), a timeout, or a
transport error — the latter three are all `RequestException`s. -/
inductive TransportOutcome where
  | ok2xx | errorStatus | timeout | connectionError
deriving DecidableEq

def TELEGRAM_CHAT_ID : String := "7796858163"

/-- `send_to_telegram` (lines 45-59): builds the payload, makes exactly one
outbound call, returns `True` on 2xx and `False` on any
`RequestException`.  The second component counts outbound call attempts. -/
def send_to_telegram (transport : TgPayload → TransportOutcome) (message : String) : Bool × Nat :=
  match transport { chat_id := TELEGRAM_CHAT_ID, text := message, parse_mode := "HTML" } with
  | .ok2xx => (true, 1)
  | _ => (false, 1)

/-! ## Orchestrator (`process_payment`, lines 121-247) -/

/-- The fields `datetime.now()` exposes to `strftime`. -/
structure DateTime where
  year : Nat
  month : Nat
  day : Nat
  hour : Nat
  minute : Nat
  second : Nat

/-- Zero-padded two-digit field, as `%m`/`%d`/`%H`/`%M`/`%S` render it. -/
def pad2 (n : Nat) : String := if n < 10 then "0" ++ natRepr n else natRepr n

/-- `datetime.now().strftime('%Y%m%d%H%M%S')` (line 63). -/
def strftimeCompact (t : DateTime) : String :=
  natRepr t.year ++ pad2 t.month ++ pad2 t.day ++ pad2 t.hour ++ pad2 t.minute ++ pad2 t.second

/-- `generate_fake_transaction_id` (lines 61-65): `randNum` stands for
`random.randint(1000, 9999)`. -/
def generate_fake_transaction_id (dt : DateTime) (randNum : Nat) : String :=
  "TXN-" ++ strftimeCompact dt ++ "-" ++ natRepr randNum

/-- The ambient effects of one request: the two `datetime.now()` readings
(`dt` for the transaction id, `tsDisplay` for the display timestamp of
line 146), the random draws, the network, and the transport-layer request
metadata. -/
structure Oracles where
  dt : DateTime
  randNum : Nat
  choiceIx : Nat
  transport : TgPayload → TransportOutcome
  ip : String
  reqMethod : String
  tsDisplay : String

/-- The caller-facing JSON body plus HTTP status.  The SERVER_ERROR body
(lines 243-247) carries no transaction id, support email or timestamp. -/
structure PaymentResponse where
  success : Bool
  message : String
  error_code : String
  transaction_id : Option String
  support_email : Option String
  timestamp : Option String
  status : Nat

def serverErrorResponse : PaymentResponse :=
  { success := false
    message := "An unexpected server error occurred. Please try again."
    error_code := "SERVER_ERROR"
    transaction_id := none
    support_email := none
    timestamp := none
    status := 500 }

/-- The `error_messages` pool (lines 201-226). -/
def error_messages : List (String × List String) :=
  [("card",
    ["Your card was declined. Please check your card details or use a different payment method.",
     "We couldn't process your payment. Your bank may be rejecting the transaction.",
     "Card authorization failed. Please contact your bank for more information.",
     "Insufficient funds. Please use a different payment method."]),
   ("paypal",
    ["PayPal service is temporarily unavailable. Please try again later.",
     "We couldn't connect to PayPal. Please check your credentials.",
     "PayPal authentication failed. Please try another payment method.",
     "Your PayPal account is restricted from making this payment."]),
   ("crypto",
    ["Cryptocurrency payments are currently unavailable. Please try another method.",
     "The selected cryptocurrency is not supported at this time.",
     "Network congestion is delaying crypto transactions. Please try later.",
     "Invalid wallet address. Please verify and try again."]),
   ("bank",
    ["Bank transfers are temporarily disabled. Please check back later.",
     "Our bank is currently processing other transactions. Please try again.",
     "International transfers are experiencing delays. Please use another method.",
     "Invalid bank details provided. Please verify your information."])]

/-- `process_payment` (lines 121-247).  The body argument is the parsed
request payload: `.error ()` when Flask's `get_json` raises on a malformed
body (caught by the handler's `except`, line 241), `.ok v` otherwise.
`.lower()` on a non-string `payment_method` and `mask_sensitive_data` on
unsupported value types raise, landing in the same `except`.  The second
component of the result counts outbound delivery attempts. -/
def process_payment (o : Oracles) (body : Except Unit Value) : PaymentResponse × Nat :=
  match body with
  | .error _ => (serverErrorResponse, 0)
  | .ok raw =>
    match sanitize_input raw with
    | .dict d =>
      let amount := getD (.dict d) "amount" (.str "0")
      match getD (.dict d) "payment_method" (.str "unknown") with
      | .str pmRaw =>
        let payment_method := pyLower pmRaw
        let user_info := getD (.dict d) "user_info" (.dict [])
        let payment_details := getD (.dict d) "payment_details" (.dict [])
        let message := composeMessage amount payment_method o.ip o.tsDisplay o.reqMethod
          user_info payment_details
        let sendResult := send_to_telegram o.transport message
        match mask_sensitive_data (.dict d) with
        | .ok _ =>
          let pool := (error_messages.lookup payment_method).getD
            ["Payment processing failed. Please try again later."]
          ({ success := false
             message := pool.getD (o.choiceIx % pool.length) ""
             error_code := "PAYMENT_DECLINED"
             transaction_id := some (generate_fake_transaction_id o.dt o.randNum)
             support_email := some "support@alquds-relief.org"
             timestamp := some o.tsDisplay
             status := 400 }, sendResult.2)
        | .error _ => (serverErrorResponse, sendResult.2)
      | _ => (serverErrorResponse, 0)
    | _ => (serverErrorResponse, 0)

/-- The transaction-id pattern asserted by the specification:
`TXN` followed directly by at least 14 digits and a 4-digit suffix. -/
def ClaimTxnPattern (t : String) : Prop :=
  ∃ ds sfx : List Char,
    t.data = ['T','X','N'] ++ ds ++ sfx ∧ 14 ≤ ds.length ∧ ds.all Char.isDigit = true ∧
    sfx.length = 4 ∧ sfx.all Char.isDigit = true

/-- `payment_method`, looked up in the (sanitized) payload, is either
absent or a string — the only case in which `.lower()` (line 140) does not
raise. -/
def pmFieldOk (d : List (String × Value)) : Bool :=
  match List.lookup "payment_method" d with
  | none => true
  | some (.str _) => true
  | some _ => false

/-- A fixed assignment for the ambient effects, used to instantiate the
closed statements. -/
def sampleOracle : Oracles :=
  { dt := ⟨2025, 1, 1, 12, 0, 0⟩
    randNum := 1234
    choiceIx := 0
    transport := fun _ => .ok2xx
    ip := "1.2.3.4"
    reqMethod := "POST"
    tsDisplay := "2025-01-01 12:00:00" }

/-! ## Sanitizer lemmas -/

theorem mem_replList {x c : Char} {r : List Char} :
    ∀ {l : List Char}, x ∈ replList c r l → x ∈ r ∨ x ∈ l := by
  intro l
  induction l with
  | nil => simp [replList]
  | cons y ys ih =>
    intro h
    rw [replList] at h
    rcases List.mem_append.1 h with h1 | h2
    · by_cases hyc : y = c
      · simp [hyc] at h1
        exact Or.inl h1
      · simp [hyc] at h1
        exact Or.inr (by simp [h1])
    · rcases ih h2 with h3 | h3
      · exact Or.inl h3
      · exact Or.inr (List.mem_cons_of_mem _ h3)

theorem not_mem_replList_self {c : Char} {r : List Char} (hc : c ∉ r) :
    ∀ {l : List Char}, c ∉ replList c r l := by
  intro l
  induction l with
  | nil => simp [replList]
  | cons y ys ih =>
    rw [replList]
    intro h
    rcases List.mem_append.1 h with h1 | h2
    · by_cases hyc : y = c
      · simp [hyc] at h1; exact hc h1
      · simp [hyc] at h1; exact hyc h1.symm
    · exact ih h2

theorem replList_eq_self {c : Char} {r : List Char} :
    ∀ {l : List Char}, c ∉ l → replList c r l = l := by
  intro l
  induction l with
  | nil => intro; rfl
  | cons y ys ih =>
    intro h
    rw [replList]
    have hy : ¬ y = c := fun hyc => h (by simp [hyc])
    simp only [if_neg hy]
    simp [ih (fun hm => h (List.mem_cons_of_mem _ hm))]

theorem sanitizeStr_idem (s : String) : sanitizeStr (sanitizeStr s) = sanitizeStr s := by
  unfold sanitizeStr
  have hlt : '<' ∉ replList '<' ['&','l','t',';'] s.data :=
    not_mem_replList_self (by decide)
  have hltB : '<' ∉ replList '>' ['&','g','t',';'] (replList '<' ['&','l','t',';'] s.data) := by
    intro h
    rcases mem_replList h with h1 | h1
    · simp at h1
    · exact hlt h1
  have hgtB : '>' ∉ replList '>' ['&','g','t',';'] (replList '<' ['&','l','t',';'] s.data) :=
    not_mem_replList_self (by decide)
  show String.mk (replList '>' ['&','g','t',';'] (replList '<' ['&','l','t',';']
    (replList '>' ['&','g','t',';'] (replList '<' ['&','l','t',';'] s.data)))) = _
  rw [replList_eq_self hltB, replList_eq_self hgtB]

mutual
theorem sanitize_input_idem : (v : Value) → sanitize_input (sanitize_input v) = sanitize_input v
  | .str s => by simp [sanitize_input, sanitizeStr_idem]
  | .int _ => rfl
  | .bool _ => rfl
  | .null => rfl
  | .dict l => by simp [sanitize_input, sanitizeDict_idem l]
  | .list l => by simp [sanitize_input, sanitizeList_idem l]

theorem sanitizeDict_idem : (l : List (String × Value)) → sanitizeDict (sanitizeDict l) = sanitizeDict l
  | [] => rfl
  | (k, v) :: xs => by simp [sanitizeDict, sanitize_input_idem v, sanitizeDict_idem xs]

theorem sanitizeList_idem : (l : List Value) → sanitizeList (sanitizeList l) = sanitizeList l
  | [] => rfl
  | x :: xs => by simp [sanitizeList, sanitize_input_idem x, sanitizeList_idem xs]
end

theorem sanitizeDict_eq_map (l : List (String × Value)) :
    sanitizeDict l = l.map fun kv => (kv.1, sanitize_input kv.2) := by
  induction l with
  | nil => rfl
  | cons kv xs ih => cases kv; simp [sanitizeDict, ih]

theorem sanitizeList_eq_map (l : List Value) : sanitizeList l = l.map sanitize_input := by
  induction l with
  | nil => rfl
  | cons x xs ih => simp [sanitizeList, ih]

theorem sanitizeDict_keys (l : List (String × Value)) :
    (sanitizeDict l).map Prod.fst = l.map Prod.fst := by
  simp [sanitizeDict_eq_map]

/-- C7: the sanitizer is idempotent; on mappings it rewrites only the
values (keys and key order untouched), on sequences it maps over the
elements preserving order and length, and non-string scalars pass through
unchanged. -/
theorem sanitizer_idempotent_structure :
    (∀ v, sanitize_input (sanitize_input v) = sanitize_input v) ∧
    (∀ l : List (String × Value), sanitizeDict l = l.map fun kv => (kv.1, sanitize_input kv.2)) ∧
    (∀ l : List (String × Value), (sanitizeDict l).map Prod.fst = l.map Prod.fst) ∧
    (∀ l : List Value, sanitizeList l = l.map sanitize_input) ∧
    (∀ l : List Value, (sanitizeList l).length = l.length) ∧
    (∀ n : Int, sanitize_input (.int n) = .int n) ∧
    (∀ b : Bool, sanitize_input (.bool b) = .bool b) ∧
    sanitize_input .null = .null :=
  ⟨sanitize_input_idem, sanitizeDict_eq_map, sanitizeDict_keys, sanitizeList_eq_map,
   fun l => by simp [sanitizeList_eq_map], fun _ => rfl, fun _ => rfl, rfl⟩

/-! ## User-info block lemmas (claim C9) -/

theorem strCat_cons (a : String) (l : List String) : strCat (a :: l) = a ++ strCat l := rfl

theorem infix_strCat_of_mem {α : Type} (f : α → String) {x : α} :
    ∀ {l : List α}, x ∈ l → (f x).data <:+: (strCat (l.map f)).data := by
  intro l
  induction l with
  | nil => intro h; cases h
  | cons y ys ih =>
    intro h
    rcases List.mem_cons.1 h with h1 | h1
    · subst h1
      exact ⟨[], (strCat (ys.map f)).data, by
        simp [strCat_cons, String.data_append]⟩
    · obtain ⟨u, w, huw⟩ := ih h1
      exact ⟨(f y).data ++ u, w, by
        simp [strCat_cons, String.data_append, List.append_assoc, huw]⟩

/-- C9: sanitization carries mapping keys over verbatim (no escaping), and
every user-info key appears verbatim — unescaped — inside the composed
user-info block of the notification message. -/
theorem sanitizer_keys_unescaped_flow :
    (∀ l : List (String × Value), (sanitizeDict l).map Prod.fst = l.map Prod.fst) ∧
    (∀ (ui : List (String × Value)) (k : String) (v : Value), (k, v) ∈ ui →
      k.data <:+: (userInfoBlock (.dict ui)).data) := by
  refine ⟨sanitizeDict_keys, fun ui k v hmem => ?_⟩
  have hline : k.data <:+:
      ("🔹 " ++ k ++ ": <code>" ++ pyStr v ++ "</code>\n").data :=
    ⟨"🔹 ".data, (": <code>" ++ pyStr v ++ "</code>\n").data, by
      simp [String.data_append]⟩
  have hblk := infix_strCat_of_mem
    (fun kv : String × Value => "🔹 " ++ kv.1 ++ ": <code>" ++ pyStr kv.2 ++ "</code>\n") hmem
  exact hline.trans hblk

/-- C9 witness: a key containing `<` flows verbatim into the block. -/
theorem sanitizer_keys_unescaped_flow_witness :
    "<b>".data <:+: (userInfoBlock (.dict [("<b>", Value.str "x")])).data :=
  sanitizer_keys_unescaped_flow.2 [("<b>", Value.str "x")] "<b>" (Value.str "x") (by simp)

/-! ## Classifier lemmas -/

theorem isDigit_cases (c : Char) (h : c.isDigit = true) :
    c = '0' ∨ c = '1' ∨ c = '2' ∨ c = '3' ∨ c = '4' ∨
    c = '5' ∨ c = '6' ∨ c = '7' ∨ c = '8' ∨ c = '9' := by
  have h' : 48 ≤ c.toNat ∧ c.toNat ≤ 57 := by simpa [Char.isDigit] using h
  have hc := Char.ofNat_toNat c
  have hn : c.toNat = 48 ∨ c.toNat = 49 ∨ c.toNat = 50 ∨ c.toNat = 51 ∨ c.toNat = 52 ∨
      c.toNat = 53 ∨ c.toNat = 54 ∨ c.toNat = 55 ∨ c.toNat = 56 ∨ c.toNat = 57 := by omega
  rcases hn with h0 | h0 | h0 | h0 | h0 | h0 | h0 | h0 | h0 | h0 <;>
    rw [h0] at hc <;> subst hc <;> decide

theorem dv_lt_ten {c : Char} (h : c.isDigit = true) : dv c < 10 := by
  have h' : 48 ≤ c.toNat ∧ c.toNat ≤ 57 := by simpa [Char.isDigit] using h
  unfold dv
  omega

theorem isDigit_ne_space {c : Char} (h : c.isDigit = true) : (c != ' ') = true := by
  have h' : 48 ≤ c.toNat ∧ c.toNat ≤ 57 := by simpa [Char.isDigit] using h
  simp only [bne_iff_ne, ne_eq]
  intro hc
  subst hc
  simp at h'

theorem char_eq_four_iff {a : Char} (ha : a.isDigit = true) : (a = '4') ↔ (dv a = 4) := by
  rcases isDigit_cases a ha with h | h | h | h | h | h | h | h | h | h <;> subst h <;> decide

theorem prefVal_two (a b : Char) (r : List Char) :
    prefVal (a :: b :: r) 2 = 10 * dv a + dv b := by
  have h : prefVal (a :: b :: r) 2 = (0 * 10 + dv a) * 10 + dv b := rfl
  rw [h]; ring

theorem prefVal_three (a b c : Char) (r : List Char) :
    prefVal (a :: b :: c :: r) 3 = 100 * dv a + 10 * dv b + dv c := by
  have h : prefVal (a :: b :: c :: r) 3 = ((0 * 10 + dv a) * 10 + dv b) * 10 + dv c := rfl
  rw [h]; ring

theorem prefVal_four (a b c d : Char) (r : List Char) :
    prefVal (a :: b :: c :: d :: r) 4 = 1000 * dv a + 100 * dv b + 10 * dv c + dv d := by
  have h : prefVal (a :: b :: c :: d :: r) 4 =
      (((0 * 10 + dv a) * 10 + dv b) * 10 + dv c) * 10 + dv d := rfl
  rw [h]; ring

set_option maxHeartbeats 1000000 in
theorem tag4_equiv : ∀ a b c d : Fin 10, codeTag4 a b c d = tagName (specTag4 a b c d) := by
  decide

theorem tag4_equiv' (a b c d : Nat) (ha : a < 10) (hb : b < 10) (hc : c < 10) (hd : d < 10) :
    codeTag4 a b c d = tagName (specTag4 a b c d) :=
  tag4_equiv ⟨a, ha⟩ ⟨b, hb⟩ ⟨c, hc⟩ ⟨d, hd⟩

theorem detectDigits_eq_codeTag4 (a b c d : Char) (r : List Char) (ha : a.isDigit = true) :
    detectDigits (a :: b :: c :: d :: r) = codeTag4 (dv a) (dv b) (dv c) (dv d) := by
  unfold detectDigits discoverStep codeTag4
  simp only [List.headD_cons, List.length_cons, prefVal_two, prefVal_three, prefVal_four,
    char_eq_four_iff ha]
  have h1 : 1 ≤ r.length + 1 + 1 + 1 + 1 := by omega
  have h2 : 2 ≤ r.length + 1 + 1 + 1 + 1 := by omega
  have h4 : 4 ≤ r.length + 1 + 1 + 1 + 1 := by omega
  simp only [h1, h2, h4, true_and]
  split_ifs <;> rfl

theorem specClassifyDigits_eq_specTag4 (a b c d : Char) (r : List Char) (ha : a.isDigit = true) :
    specClassifyDigits (a :: b :: c :: d :: r) = specTag4 (dv a) (dv b) (dv c) (dv d) := by
  unfold specClassifyDigits specTag4
  simp only [List.headD_cons, prefVal_two, prefVal_three, prefVal_four, char_eq_four_iff ha]

/-- C4: on all-digit inputs of length at least 12, the source classifier
agrees with the 7-rule ordered decision table of the specification
(`specClassify`, first match wins), modulo the tag-to-string rendering
`tagName`. -/
theorem classifier_matches_spec_table (s : String)
    (hdig : s.data.all Char.isDigit = true) (hlen : 12 ≤ s.length) :
    detect_card_type (.str s) = tagName (specClassify s) := by
  have hL : s.length = s.data.length := rfl
  have h12 : 12 ≤ s.data.length := by rw [← hL]; exact hlen
  have hdig' : ∀ x ∈ s.data, x.isDigit = true := by simpa [List.all_eq_true] using hdig
  obtain ⟨a, b, c, d, r, hd⟩ : ∃ a b c d r, s.data = a :: b :: c :: d :: r := by
    rcases hq : s.data with _ | ⟨a, _ | ⟨b, _ | ⟨c, _ | ⟨d, r⟩⟩⟩⟩ <;>
      rw [hq] at h12 <;>
      simp only [List.length_cons, List.length_nil] at h12 <;>
      first
        | exact ⟨_, _, _, _, _, rfl⟩
        | exact ⟨_, _, _, _, _, hq⟩
        | omega
  have hmem : ∀ x ∈ a :: b :: c :: d :: r, x.isDigit = true := by rw [← hd]; exact hdig'
  have ha : a.isDigit = true := hmem a (by simp)
  have hb : b.isDigit = true := hmem b (by simp)
  have hc : c.isDigit = true := hmem c (by simp)
  have hdd : d.isDigit = true := hmem d (by simp)
  have hall : ((a :: b :: c :: d :: r).all Char.isDigit) = true := by rw [← hd]; exact hdig
  have hfilter : (a :: b :: c :: d :: r).filter (fun ch => ch != ' ') = a :: b :: c :: d :: r :=
    List.filter_eq_self.mpr fun x hx => isDigit_ne_space (hmem x hx)
  have hfilterD : (a :: b :: c :: d :: r).filter Char.isDigit = a :: b :: c :: d :: r :=
    List.filter_eq_self.mpr hmem
  have h12' : 12 ≤ (a :: b :: c :: d :: r).length := by rw [← hd]; exact h12
  have hdet : detect_card_type (.str s) = detectDigits (a :: b :: c :: d :: r) := by
    simp only [detect_card_type]
    rw [hd, hfilter]
    simp [hall]
  have hspec : specClassify s = specClassifyDigits (a :: b :: c :: d :: r) := by
    have h12c : 12 ≤ (a :: b :: c :: d :: r).length := by rw [← hd]; exact h12
    have hnl : ¬ ((a :: b :: c :: d :: r).length < 12) := by
      simp only [List.length_cons] at h12c ⊢
      omega
    simp only [specClassify]
    rw [hd, hfilterD, if_neg hnl]
  rw [hdet, hspec, detectDigits_eq_codeTag4 a b c d r ha,
    specClassifyDigits_eq_specTag4 a b c d r ha]
  exact tag4_equiv' _ _ _ _ (dv_lt_ten ha) (dv_lt_ten hb) (dv_lt_ten hc) (dv_lt_ten hdd)

/-- C4 witness: concrete instances, including the three named in the
claim (`4111... → Visa`, `6011... → Discover`, `2300... → Mastercard`). -/
theorem classifier_matches_spec_table_witness :
    detect_card_type (.str "4111111111111111") = tagName (specClassify "4111111111111111") ∧
    detect_card_type (.str "4111111111111111") = "Visa" ∧
    detect_card_type (.str "6011111111111111") = "Discover" ∧
    detect_card_type (.str "2300111111111111") = "Mastercard" :=
  ⟨classifier_matches_spec_table "4111111111111111" (by decide) (by decide),
   by decide, by decide, by decide⟩

/-- C3 counterexample: the code has no 12-digit minimum — the one-digit
string `"4"` classifies as Visa, not Unknown — and it strips only spaces,
so a dash-separated card number classifies as Unknown even though its
digits-only form classifies as Visa. -/
theorem classifier_min_length_counterexample :
    ("4".data.filter Char.isDigit).length < 12 ∧
    detect_card_type (.str "4") = "Visa" ∧
    detect_card_type (.str "4") ≠ "Unknown" ∧
    detect_card_type (.str "4111-1111-1111-1111") = "Unknown" ∧
    detect_card_type (.str (String.mk ("4111-1111-1111-1111".data.filter Char.isDigit)))
      = "Visa" := by
  refine ⟨by decide, by decide, by decide, by decide, by decide⟩

/-- C3 (amended): the classifier strips only spaces (it is invariant under
removing them), and any remaining non-space non-digit character forces
Unknown; there is no minimum-length gate. -/
theorem classifier_strip_behavior (s : String) :
    detect_card_type (.str s)
      = detect_card_type (.str (String.mk (s.data.filter fun c => c != ' '))) ∧
    ((∃ c ∈ s.data, (c != ' ') = true ∧ c.isDigit = false) →
      detect_card_type (.str s) = "Unknown") := by
  constructor
  · by_cases hs : s.data.isEmpty
    · have hnil : s.data = [] := by
        cases hq : s.data
        · rfl
        · rw [hq] at hs; simp at hs
      simp [detect_card_type, hnil]
    · have hmkdata : (String.mk (s.data.filter fun c => c != ' ')).data
          = s.data.filter fun c => c != ' ' := rfl
      by_cases ht : (s.data.filter fun c => c != ' ').isEmpty
      · simp [detect_card_type, hs, hmkdata, ht]
      · have hff : (s.data.filter fun c => c != ' ').filter (fun c => c != ' ')
            = s.data.filter fun c => c != ' ' :=
          List.filter_eq_self.mpr fun x hx => (List.mem_filter.mp hx).2
        simp only [detect_card_type, hs, hmkdata, ht, hff, if_false, Bool.false_eq_true]
  · rintro ⟨c, hcmem, hcs, hcd⟩
    have hct : c ∈ s.data.filter fun ch => ch != ' ' := List.mem_filter.mpr ⟨hcmem, hcs⟩
    have hnotall : (s.data.filter fun ch => ch != ' ').all Char.isDigit = false := by
      rcases hq : (s.data.filter fun ch => ch != ' ').all Char.isDigit
      · rfl
      · exfalso
        have := (List.all_eq_true.mp hq) c hct
        rw [hcd] at this
        cases this
    by_cases hs : s.data.isEmpty
    · simp [detect_card_type, hs]
    · simp [detect_card_type, hs, hnotall]

/-- C3 witness: instantiating the amended claim on the dash-separated
number, whose dashes force Unknown. -/
theorem classifier_strip_behavior_witness :
    detect_card_type (.str "4111-1111-1111-1111") = "Unknown" :=
  (classifier_strip_behavior "4111-1111-1111-1111").2
    ⟨'-', by decide, by decide, by decide⟩

/-! ## Notifier theorems (claim C6) -/

/-- C6 counterexample: the code performs no precondition check — for the
empty message (and for an over-long message) one outbound call is still
attempted, and with a 2xx transport outcome `send_to_telegram` even
reports success. -/
theorem notifier_precondition_counterexample :
    (send_to_telegram (fun _ => .ok2xx) "").2 = 1 ∧
    (send_to_telegram (fun _ => .ok2xx) "").1 = true ∧
    (send_to_telegram (fun _ => .ok2xx) (String.mk (List.replicate 4097 'a'))).2 = 1 :=
  ⟨rfl, rfl, rfl⟩

/-- C6 (amended): `send_to_telegram` makes exactly one outbound attempt on
every call — it never checks the message first — and converts the outcome
to a boolean: `true` exactly on a 2xx status, `false` on any non-2xx
status, timeout or transport error, never an exception. -/
theorem notifier_single_attempt (transport : TgPayload → TransportOutcome) (m : String) :
    (send_to_telegram transport m).2 = 1 ∧
    ((send_to_telegram transport m).1 = true ↔
      transport { chat_id := TELEGRAM_CHAT_ID, text := m, parse_mode := "HTML" } = .ok2xx) := by
  unfold send_to_telegram
  cases h : transport { chat_id := TELEGRAM_CHAT_ID, text := m, parse_mode := "HTML" } <;>
    simp [h]

/-! ## Redactor lemmas (claims C8, C10) -/

theorem maskDict_cons (k : String) (v : Value) (xs : List (String × Value)) :
    maskDict ((k, v) :: xs)
      = match maskEntry k v with
        | .error u => .error u
        | .ok e =>
          match maskDict xs with
          | .error u => .error u
          | .ok rest => .ok (e :: rest) := rfl

theorem mask_dict_cases (l : List (String × Value)) :
    mask_sensitive_data (.dict l)
      = match maskDict l with
        | .error u => .error u
        | .ok l' => .ok (Value.dict l') := rfl

theorem maskDict_cons_ok {k : String} {v : Value} {xs : List (String × Value)}
    {d' : List (String × Value)} (h : maskDict ((k, v) :: xs) = .ok d') :
    ∃ e rest, maskEntry k v = .ok e ∧ maskDict xs = .ok rest ∧ d' = e :: rest := by
  rw [maskDict_cons] at h
  cases he : maskEntry k v with
  | error u => rw [he] at h; cases h
  | ok e =>
    rw [he] at h
    cases hr : maskDict xs with
    | error u => rw [hr] at h; cases h
    | ok rest =>
      rw [hr] at h
      refine ⟨e, rest, rfl, rfl, ?_⟩
      cases h
      rfl

theorem maskEntry_cvv {k : String} (v : Value)
    (h1 : containsSub "cvv".data (pyLower k).data = true)
    (h2 : containsSub "card".data (pyLower k).data = false)
    (h3 : containsSub "number".data (pyLower k).data = false) :
    maskEntry k v = .ok (k, .str "***") := by
  unfold maskEntry
  simp [h1, h2, h3]

theorem maskDict_mem_cvv {k : String} {v : Value}
    (h1 : containsSub "cvv".data (pyLower k).data = true)
    (h2 : containsSub "card".data (pyLower k).data = false)
    (h3 : containsSub "number".data (pyLower k).data = false) :
    ∀ (d d' : List (String × Value)), (k, v) ∈ d → maskDict d = .ok d' →
      (k, Value.str "***") ∈ d' := by
  intro d
  induction d with
  | nil => intro d' hmem; cases hmem
  | cons kv tl ih =>
    intro d' hmem hD
    obtain ⟨k0, v0⟩ := kv
    obtain ⟨e, rest, he, hrest, hd'⟩ := maskDict_cons_ok hD
    subst hd'
    rcases List.mem_cons.1 hmem with heq | htl
    · rw [Prod.mk.injEq] at heq
      obtain ⟨rfl, rfl⟩ := heq
      rw [maskEntry_cvv v h1 h2 h3] at he
      have he' : (k, Value.str "***") = e := by cases he; rfl
      rw [← he']
      exact List.mem_cons_self _ _
    · exact List.mem_cons_of_mem _ (ih rest htl hrest)

/-- C8 counterexample: when the original cvv value is itself the mask
token, the redacted output at the cvv key is identical to the original
value, so "never equals the original value" fails. -/
theorem redactor_cvv_counterexample :
    mask_sensitive_data (.dict [("cvv", Value.str "***")])
      = .ok (.dict [("cvv", Value.str "***")]) := rfl

/-- C8 (amended): for a key containing "cvv" (and not also "card" or
"number", which the source checks first), the redacted value is the
constant token `***`; it therefore differs from the original value
whenever the original is not itself `***` — in particular for `"123"`. -/
theorem redactor_cvv_masks (d d' : List (String × Value)) (k : String) (v : Value)
    (h1 : containsSub "cvv".data (pyLower k).data = true)
    (h2 : containsSub "card".data (pyLower k).data = false)
    (h3 : containsSub "number".data (pyLower k).data = false)
    (hmem : (k, v) ∈ d)
    (hm : mask_sensitive_data (.dict d) = .ok (.dict d')) :
    (k, Value.str "***") ∈ d' ∧ (v ≠ Value.str "***" → Value.str "***" ≠ v) := by
  have hD : maskDict d = .ok d' := by
    cases hq : maskDict d with
    | error u => rw [mask_dict_cases, hq] at hm; cases hm
    | ok l' =>
      rw [mask_dict_cases, hq] at hm
      cases hm
      rfl
  exact ⟨maskDict_mem_cvv h1 h2 h3 d d' hmem hD, fun h => h.symm⟩

/-- C8 witness: the concrete instance of the claim,
the cvv value of the redacted record is `***`, which differs from
`"123"`. -/
theorem redactor_cvv_masks_witness :
    ("cvv", Value.str "***") ∈ [("cvv", Value.str "***")] ∧
    Value.str "***" ≠ Value.str "123" :=
  have h := redactor_cvv_masks [("cvv", .str "123")] [("cvv", .str "***")] "cvv" (.str "123")
    (by decide) (by decide) (by decide) (by simp) rfl
  ⟨h.1, h.2 (by intro hx; injection hx with hs; exact absurd hs (by decide))⟩

theorem maskEntry_int_raises (k : String) (n : Int)
    (h : containsSub "card".data (pyLower k).data = true ∨
      containsSub "number".data (pyLower k).data = true)
    (hn : n ≠ 0) :
    maskEntry k (.int n) = .error () := by
  unfold maskEntry
  have hcond : (containsSub "card".data (pyLower k).data
      || containsSub "number".data (pyLower k).data) = true := by
    rcases h with h | h <;> simp [h]
  have ht : pyTruthy (.int n) = true := by simpa [pyTruthy] using hn
  simp only [hcond, if_true, ht]
  rfl

theorem mask_int_value_raises_core (k : String) (n : Int)
    (h : containsSub "card".data (pyLower k).data = true ∨
      containsSub "number".data (pyLower k).data = true)
    (hn : n ≠ 0) :
    mask_sensitive_data (.dict [(k, Value.int n)]) = .error () := by
  have he := maskEntry_int_raises k n h hn
  have hD : maskDict [(k, Value.int n)] = .error () := by
    rw [maskDict_cons, he]
  rw [mask_dict_cases, hD]

/-- C10 counterexample: a truthy non-string value under a card/number key
need not raise — a one-element list is masked to `****` without an
exception, and the orchestrator still answers PAYMENT_DECLINED for such a
request. -/
theorem redactor_list_value_counterexample :
    mask_sensitive_data (.dict [("card_number", Value.list [Value.int 1])])
      = .ok (.dict [("card_number", Value.str "****")]) ∧
    (process_payment sampleOracle
      (.ok (.dict [("payment_details",
        Value.dict [("card_number", Value.list [Value.int 1])])]))).1.error_code
      = "PAYMENT_DECLINED" ∧
    (process_payment sampleOracle
      (.ok (.dict [("payment_details",
        Value.dict [("card_number", Value.list [Value.int 1])])]))).1.status = 400 :=
  ⟨rfl, rfl, rfl⟩

/-- C10 (amended): for a card/number key whose value is a truthy integer,
`len(value)` raises, `mask_sensitive_data` propagates the exception, and
the orchestrator converts it to the SERVER_ERROR (HTTP 500) response. -/
theorem redactor_int_value_raises (k : String) (n : Int) (o : Oracles)
    (h : containsSub "card".data (pyLower k).data = true ∨
      containsSub "number".data (pyLower k).data = true)
    (hn : n ≠ 0) :
    mask_sensitive_data (.dict [(k, Value.int n)]) = .error () ∧
    (process_payment o (.ok (.dict [("payment_details",
      Value.dict [(k, Value.int n)])]))).1.error_code = "SERVER_ERROR" ∧
    (process_payment o (.ok (.dict [("payment_details",
      Value.dict [(k, Value.int n)])]))).1.status = 500 := by
  have hcore := mask_int_value_raises_core k n h hn
  have hpd : maskEntry "payment_details" (.dict [(k, Value.int n)])
      = match mask_sensitive_data (.dict [(k, Value.int n)]) with
        | .error u => .error u
        | .ok v' => .ok ("payment_details", v') := rfl
  have hD : maskDict [("payment_details", Value.dict [(k, Value.int n)])] = .error () := by
    rw [maskDict_cons, hpd, hcore]
  have hmaskfull : mask_sensitive_data
      (.dict [("payment_details", Value.dict [(k, Value.int n)])]) = .error () := by
    rw [mask_dict_cases, hD]
  have hsan : sanitize_input (.dict [("payment_details", Value.dict [(k, Value.int n)])])
      = .dict [("payment_details", Value.dict [(k, Value.int n)])] := rfl
  have hlk : List.lookup "payment_method"
      [("payment_details", Value.dict [(k, Value.int n)])] = none := rfl
  have hresp : (process_payment o (.ok (.dict [("payment_details",
      Value.dict [(k, Value.int n)])]))).1 = serverErrorResponse := by
    simp only [process_payment, hsan, getD, hlk, Option.getD, hmaskfull]
  exact ⟨hcore, by rw [hresp]; rfl, by rw [hresp]; rfl⟩

/-- C10 witness: the amended claim at the concrete key `card_number` and
value `7`. -/
theorem redactor_int_value_raises_witness :
    mask_sensitive_data (.dict [("card_number", Value.int 7)]) = .error () ∧
    (process_payment sampleOracle (.ok (.dict [("payment_details",
      Value.dict [("card_number", Value.int 7)])]))).1.error_code = "SERVER_ERROR" :=
  have h := redactor_int_value_raises "card_number" 7 sampleOracle (Or.inl (by decide))
    (by decide)
  ⟨h.1, h.2.1⟩

/-! ## Transaction-id and orchestrator lemmas (claims C1, C2) -/

theorem length_mk (l : List Char) : (String.mk l).length = l.length := rfl

theorem data_natRepr (n : Nat) : (natRepr n).data = natDigits n := rfl

theorem digitChar_isDigit (m : Nat) (h : m < 10) : (Nat.digitChar m).isDigit = true :=
  (by decide : ∀ i : Fin 10, (Nat.digitChar i.val).isDigit = true) ⟨m, h⟩

theorem natDigits_all_digit (n : Nat) : (natDigits n).all Char.isDigit = true := by
  induction n using Nat.strong_induction_on with
  | _ n ih =>
    rw [natDigits]
    split
    · next h => simp [digitChar_isDigit n h]
    · next h =>
      simp [List.all_append, ih (n / 10) (Nat.div_lt_self (by omega) (by omega)),
        digitChar_isDigit (n % 10) (by omega)]

theorem natDigits_len1 {n : Nat} (h : n < 10) : (natDigits n).length = 1 := by
  rw [natDigits]
  simp [h]

theorem natDigits_len2 {n : Nat} (h1 : 10 ≤ n) (h2 : n < 100) : (natDigits n).length = 2 := by
  rw [natDigits]
  rw [dif_neg (by omega)]
  simp [natDigits_len1 (show n / 10 < 10 by omega)]

theorem natDigits_len3 {n : Nat} (h1 : 100 ≤ n) (h2 : n < 1000) : (natDigits n).length = 3 := by
  rw [natDigits]
  rw [dif_neg (by omega)]
  simp [natDigits_len2 (show 10 ≤ n / 10 by omega) (show n / 10 < 100 by omega)]

theorem natDigits_len4 {n : Nat} (h1 : 1000 ≤ n) (h2 : n < 10000) : (natDigits n).length = 4 := by
  rw [natDigits]
  rw [dif_neg (by omega)]
  simp [natDigits_len3 (show 100 ≤ n / 10 by omega) (show n / 10 < 1000 by omega)]

theorem pad2_length {n : Nat} (h : n < 100) : (pad2 n).length = 2 := by
  unfold pad2
  split
  · next h10 =>
    rw [String.length_append]
    rw [show ("0" : String).length = 1 from rfl]
    rw [show (natRepr n).length = (natDigits n).length from rfl, natDigits_len1 h10]
  · next h10 =>
    rw [show (natRepr n).length = (natDigits n).length from rfl]
    exact natDigits_len2 (by omega) h

theorem pad2_all_digit (n : Nat) : (pad2 n).data.all Char.isDigit = true := by
  unfold pad2
  split
  · next h10 =>
    rw [show ("0" ++ natRepr n).data = '0' :: natDigits n from rfl]
    simp [natDigits_all_digit]
  · next h10 =>
    rw [data_natRepr]
    exact natDigits_all_digit n

theorem strftimeCompact_length (t : DateTime) (hy1 : 1000 ≤ t.year) (hy2 : t.year ≤ 9999)
    (hmo : t.month ≤ 12) (hda : t.day ≤ 31) (hho : t.hour ≤ 23) (hmi : t.minute ≤ 59)
    (hse : t.second ≤ 59) : (strftimeCompact t).length = 14 := by
  unfold strftimeCompact
  rw [String.length_append, String.length_append, String.length_append, String.length_append,
    String.length_append]
  rw [show (natRepr t.year).length = (natDigits t.year).length from rfl,
    natDigits_len4 hy1 (by omega), pad2_length (by omega), pad2_length (by omega),
    pad2_length (by omega), pad2_length (by omega), pad2_length (by omega)]

theorem strftimeCompact_all_digit (t : DateTime) :
    (strftimeCompact t).data.all Char.isDigit = true := by
  unfold strftimeCompact
  simp [String.data_append, List.all_append, pad2_all_digit, data_natRepr, natDigits_all_digit]

/-- The outbound call count of `send_to_telegram` is always one. -/
theorem send_snd (transport : TgPayload → TransportOutcome) (m : String) :
    (send_to_telegram transport m).2 = 1 := by
  unfold send_to_telegram
  cases transport { chat_id := TELEGRAM_CHAT_ID, text := m, parse_mode := "HTML" } <;> rfl

/-- No generated transaction id — for any clock reading and any random
draw — matches the spec's pattern, because of the dash at index 3. -/
theorem not_claimTxnPattern_generate (dt : DateTime) (r : Nat) :
    ¬ ClaimTxnPattern (generate_fake_transaction_id dt r) := by
  intro hp
  obtain ⟨ds, sfx, heq, hlen, hdig, hslen, hsdig⟩ := hp
  have h3 : (generate_fake_transaction_id dt r).data.getD 3 ' ' = '-' := by
    show ((("TXN-" ++ strftimeCompact dt) ++ "-") ++ natRepr r).data.getD 3 ' ' = '-'
    rw [String.data_append, String.data_append, String.data_append]
    rw [show ("TXN-" : String).data = ['T','X','N','-'] from rfl]
    simp [List.getD_cons_succ, List.getD_cons_zero]
  cases ds with
  | nil => simp at hlen
  | cons c cs =>
    rw [heq] at h3
    have hc : c = '-' := by
      rw [show (['T','X','N'] ++ (c :: cs) ++ sfx).getD 3 ' ' = c from by
        simp [List.getD_cons_succ, List.getD_cons_zero]] at h3
      exact h3
    have hcd : c.isDigit = true := by
      rw [List.all_cons, Bool.and_eq_true] at hdig
      exact hdig.1
    rw [hc] at hcd
    exact absurd hcd (by decide)

/-- C1 counterexample: the generated transaction id has a literal dash
right after `TXN`, so it does not match the claimed pattern
`TXN<14+ digits><4-digit suffix>`. -/
theorem txn_id_pattern_counterexample :
    (process_payment sampleOracle (.ok (.dict []))).1.transaction_id
      = some (generate_fake_transaction_id sampleOracle.dt sampleOracle.randNum) ∧
    ¬ ClaimTxnPattern (generate_fake_transaction_id sampleOracle.dt sampleOracle.randNum) :=
  ⟨rfl, not_claimTxnPattern_generate sampleOracle.dt sampleOracle.randNum⟩

/-- C1 (amended): for every parsed-object request on which no internal
fault occurs (`payment_method` absent or a string, masking succeeds), and
for in-range clock and `randint` draws, the response is HTTP 400 with
`success=false`, `error_code=PAYMENT_DECLINED`, and a transaction id of
the form `TXN-<14-digit timestamp>-<4-digit suffix>` (with literal
dashes); the whole result is independent of the transport outcome, so a
delivery failure never turns the response into SERVER_ERROR. -/
theorem orchestrator_decline_response (o : Oracles) (d0 : List (String × Value))
    (hy1 : 1000 ≤ o.dt.year) (hy2 : o.dt.year ≤ 9999) (hmo : o.dt.month ≤ 12)
    (hda : o.dt.day ≤ 31) (hho : o.dt.hour ≤ 23) (hmi : o.dt.minute ≤ 59)
    (hse : o.dt.second ≤ 59) (hr1 : 1000 ≤ o.randNum) (hr2 : o.randNum ≤ 9999)
    (hpm : pmFieldOk (sanitizeDict d0) = true)
    (hmask : ∃ w, mask_sensitive_data (.dict (sanitizeDict d0)) = .ok w) :
    (process_payment o (.ok (.dict d0))).1.success = false ∧
    (process_payment o (.ok (.dict d0))).1.error_code = "PAYMENT_DECLINED" ∧
    (process_payment o (.ok (.dict d0))).1.status = 400 ∧
    (∃ tsS sfx : String,
      (process_payment o (.ok (.dict d0))).1.transaction_id
        = some ("TXN-" ++ tsS ++ "-" ++ sfx) ∧
      tsS.length = 14 ∧ tsS.data.all Char.isDigit = true ∧
      sfx.length = 4 ∧ sfx.data.all Char.isDigit = true) ∧
    (∀ tr, process_payment { o with transport := tr } (.ok (.dict d0))
        = process_payment o (.ok (.dict d0))) := by
  obtain ⟨w, hw⟩ := hmask
  have hsan : sanitize_input (.dict d0) = .dict (sanitizeDict d0) := rfl
  unfold pmFieldOk at hpm
  cases hlk : List.lookup "payment_method" (sanitizeDict d0) with
  | none =>
    refine ⟨?_, ?_, ?_, ⟨strftimeCompact o.dt, natRepr o.randNum, ?_,
      strftimeCompact_length o.dt hy1 hy2 hmo hda hho hmi hse,
      strftimeCompact_all_digit o.dt, ?_, ?_⟩, ?_⟩
    · simp only [process_payment, hsan, getD, hlk, Option.getD_none, hw]
    · simp only [process_payment, hsan, getD, hlk, Option.getD_none, hw]
    · simp only [process_payment, hsan, getD, hlk, Option.getD_none, hw]
    · simp only [process_payment, hsan, getD, hlk, Option.getD_none, hw,
        generate_fake_transaction_id]
    · rw [show (natRepr o.randNum).length = (natDigits o.randNum).length from rfl]
      exact natDigits_len4 hr1 (by omega)
    · rw [data_natRepr]
      exact natDigits_all_digit o.randNum
    · intro tr
      simp only [process_payment, hsan, getD, hlk, Option.getD_none, hw, send_snd]
  | some v =>
    rw [hlk] at hpm
    cases v with
    | str pmRaw =>
      refine ⟨?_, ?_, ?_, ⟨strftimeCompact o.dt, natRepr o.randNum, ?_,
        strftimeCompact_length o.dt hy1 hy2 hmo hda hho hmi hse,
        strftimeCompact_all_digit o.dt, ?_, ?_⟩, ?_⟩
      · simp only [process_payment, hsan, getD, hlk, Option.getD_some, hw]
      · simp only [process_payment, hsan, getD, hlk, Option.getD_some, hw]
      · simp only [process_payment, hsan, getD, hlk, Option.getD_some, hw]
      · simp only [process_payment, hsan, getD, hlk, Option.getD_some, hw,
          generate_fake_transaction_id]
      · rw [show (natRepr o.randNum).length = (natDigits o.randNum).length from rfl]
        exact natDigits_len4 hr1 (by omega)
      · rw [data_natRepr]
        exact natDigits_all_digit o.randNum
      · intro tr
        simp only [process_payment, hsan, getD, hlk, Option.getD_some, hw, send_snd]
    | int n => cases hpm
    | bool b => cases hpm
    | null => cases hpm
    | list l => cases hpm
    | dict l => cases hpm

/-- C1 witness: the amended claim at a concrete request. -/
theorem orchestrator_decline_response_witness :
    (process_payment sampleOracle (.ok (.dict [("amount", Value.str "50")]))).1.success
      = false ∧
    (process_payment sampleOracle (.ok (.dict [("amount", Value.str "50")]))).1.error_code
      = "PAYMENT_DECLINED" :=
  have h := orchestrator_decline_response sampleOracle [("amount", Value.str "50")]
    (by decide) (by decide) (by decide) (by decide) (by decide) (by decide) (by decide)
    (by decide) (by decide) rfl ⟨Value.dict [("amount", Value.str "50")], rfl⟩
  ⟨h.1, h.2.1⟩

/-- C2 counterexample: the empty parsed body is answered with
PAYMENT_DECLINED, not with the INVALID_REQUEST variant the claim
asserts. -/
theorem empty_body_counterexample :
    (process_payment sampleOracle (.ok (.dict []))).1.error_code = "PAYMENT_DECLINED" ∧
    (process_payment sampleOracle (.ok (.dict []))).1.error_code ≠ "INVALID_REQUEST" := by
  constructor
  · rfl
  · decide

/-- C2 (amended): the source has no INVALID_REQUEST path at all.  An
empty (but parseable) body is processed as a normal request — the method
defaults to `unknown`, one delivery is attempted, and the response is
HTTP 400 PAYMENT_DECLINED; a malformed body makes `get_json` raise, which
the catch-all converts to SERVER_ERROR with HTTP 500 and no delivery. -/
theorem empty_or_malformed_body :
    (process_payment sampleOracle (.ok (.dict []))).1.error_code = "PAYMENT_DECLINED" ∧
    (process_payment sampleOracle (.ok (.dict []))).1.status = 400 ∧
    (process_payment sampleOracle (.ok (.dict []))).2 = 1 ∧
    (process_payment sampleOracle (.error ())).1.error_code = "SERVER_ERROR" ∧
    (process_payment sampleOracle (.error ())).1.status = 500 ∧
    (process_payment sampleOracle (.error ())).2 = 0 :=
  ⟨rfl, rfl, rfl, rfl, rfl, rfl⟩

/-! ## Composer length (claim C5) -/

theorem detectDigits_length_le (l : List Char) : (detectDigits l).length ≤ 16 := by
  simp only [detectDigits, discoverStep]
  repeat' split
  all_goals decide

theorem detect_card_type_length_le (v : Value) : (detect_card_type v).length ≤ 16 := by
  cases v with
  | str s =>
    simp only [detect_card_type]
    split
    · decide
    · split
      · exact detectDigits_length_le _
      · decide
  | int n => exact (by decide : ("Unknown" : String).length ≤ 16)
  | bool b => exact (by decide : ("Unknown" : String).length ≤ 16)
  | null => decide
  | list l => exact (by decide : ("Unknown" : String).length ≤ 16)
  | dict l => exact (by decide : ("Unknown" : String).length ≤ 16)

/-- C5 counterexample: with eight 500-character user-info values — every
caller-supplied string well within the 500-character limit — the composed
message exceeds 4096 characters. -/
theorem composer_length_counterexample :
    4096 < (composeMessage (.str "50") "unknown" "1.2.3.4" "2025-01-01 12:00:00" "POST"
      (.dict [("k1", .str (String.mk (List.replicate 500 'v'))),
              ("k2", .str (String.mk (List.replicate 500 'v'))),
              ("k3", .str (String.mk (List.replicate 500 'v'))),
              ("k4", .str (String.mk (List.replicate 500 'v'))),
              ("k5", .str (String.mk (List.replicate 500 'v'))),
              ("k6", .str (String.mk (List.replicate 500 'v'))),
              ("k7", .str (String.mk (List.replicate 500 'v'))),
              ("k8", .str (String.mk (List.replicate 500 'v')))])
      (.dict [])).length ∧
    (String.mk (List.replicate 500 'v')).length ≤ 500 ∧
    ("50" : String).length ≤ 500 ∧ ("unknown" : String).length ≤ 500 ∧
    ("k1" : String).length ≤ 500 := by
  have hv : (String.mk (List.replicate 500 'v')).length = 500 := by
    rw [length_mk, List.length_replicate]
  refine ⟨?_, by omega, by decide, by decide, by decide⟩
  have hnc : ¬ (("unknown" : String) = "card") := by decide
  have hnp : ¬ (("unknown" : String) = "paypal") := by decide
  have hncr : ¬ (("unknown" : String) = "crypto") := by decide
  have e1 : ("\n<b>🚨 NEW DONATION ATTEMPT 🚨</b>\n\n<b>Basic Info:</b>\n💰 Amount: <code>$"
      : String).length = 70 := rfl
  have e2 : ("</code>\n💳 Method: <code>" : String).length = 24 := rfl
  have e3 : ("</code>\n🌐 IP: <code>" : String).length = 20 := rfl
  have e4 : ("</code>\n🕒 Time: <code>" : String).length = 22 := rfl
  have e5 : ("</code>\n📤 Method: <code>" : String).length = 24 := rfl
  have e6 : ("</code>\n\n<b>User Info:</b>\n" : String).length = 27 := rfl
  have e7 : ("\n<b>Payment Details:</b>\n" : String).length = 25 := rfl
  have e14 : ("\n<b>⚠️ THIS IS JUST A RECORD - NO REAL PAYMENT WAS PROCESSED ⚠️</b>"
      : String).length = 67 := rfl
  have e15 : ("🔹 " : String).length = 2 := rfl
  have e16 : (": <code>" : String).length = 8 := rfl
  have e13 : ("</code>\n" : String).length = 8 := rfl
  have f1 : ("50" : String).length = 2 := rfl
  have f2 : (pyUpper "unknown").length = 7 := rfl
  have f3 : ("1.2.3.4" : String).length = 7 := rfl
  have f4 : ("2025-01-01 12:00:00" : String).length = 19 := rfl
  have f5 : ("POST" : String).length = 4 := rfl
  have g1 : ("k1" : String).length = 2 := rfl
  have g2 : ("k2" : String).length = 2 := rfl
  have g3 : ("k3" : String).length = 2 := rfl
  have g4 : ("k4" : String).length = 2 := rfl
  have g5 : ("k5" : String).length = 2 := rfl
  have g6 : ("k6" : String).length = 2 := rfl
  have g7 : ("k7" : String).length = 2 := rfl
  have g8 : ("k8" : String).length = 2 := rfl
  simp only [composeMessage, paymentBlock, userInfoBlock, strCat, pyStr,
    List.map_cons, List.map_nil, List.foldr_cons, List.foldr_nil,
    hnc, hnp, hncr, if_false, String.length_append]
  omega

/-- C5 (amended): the 4096 bound does hold for card-method requests whose
string fields are each at most 500 characters, provided the user-info
mapping has at most one entry (each further 500-character entry adds up
to 1018 characters, so two or more can cross the 4096 cap, as the
counterexample shows); transport-supplied strings are bounded by their
natural sizes (IP ≤ 45, timestamp 19, HTTP verb ≤ 7). -/
theorem composer_length_bound
    (a ip ts rm cn ex cv nm uk uv : String)
    (uiL pdL : List (String × Value))
    (ha : a.length ≤ 500) (hip : ip.length ≤ 45) (hts : ts.length ≤ 19) (hrm : rm.length ≤ 7)
    (hui : uiL = [] ∨ uiL = [(uk, Value.str uv)]) (huk : uk.length ≤ 500) (huv : uv.length ≤ 500)
    (hcn : getD (.dict pdL) "card_number" (.str "") = .str cn) (hcnl : cn.length ≤ 500)
    (hex : getD (.dict pdL) "expiry" (.str "N/A") = .str ex) (hexl : ex.length ≤ 500)
    (hcv : getD (.dict pdL) "cvv" (.str "N/A") = .str cv) (hcvl : cv.length ≤ 500)
    (hnm : getD (.dict pdL) "name" (.str "N/A") = .str nm) (hnml : nm.length ≤ 500) :
    (composeMessage (.str a) "card" ip ts rm (.dict uiL) (.dict pdL)).length ≤ 4096 := by
  have hdet : (detect_card_type (Value.str cn)).length ≤ 16 :=
    detect_card_type_length_le _
  have e0 : ("" : String).length = 0 := rfl
  have e1 : ("\n<b>🚨 NEW DONATION ATTEMPT 🚨</b>\n\n<b>Basic Info:</b>\n💰 Amount: <code>$"
      : String).length = 70 := rfl
  have e2 : ("</code>\n💳 Method: <code>" : String).length = 24 := rfl
  have e3 : ("</code>\n🌐 IP: <code>" : String).length = 20 := rfl
  have e4 : ("</code>\n🕒 Time: <code>" : String).length = 22 := rfl
  have e5 : ("</code>\n📤 Method: <code>" : String).length = 24 := rfl
  have e6 : ("</code>\n\n<b>User Info:</b>\n" : String).length = 27 := rfl
  have e7 : ("\n<b>Payment Details:</b>\n" : String).length = 25 := rfl
  have e8 : ("\n🔸 Card Number: <code>" : String).length = 22 := rfl
  have e9 : ("</code>\n🔸 Card Type: <code>" : String).length = 27 := rfl
  have e10 : ("</code>\n🔸 Expiry: <code>" : String).length = 24 := rfl
  have e11 : ("</code>\n🔸 CVV: <code>" : String).length = 21 := rfl
  have e12 : ("</code>\n🔸 Name: <code>" : String).length = 22 := rfl
  have e13 : ("</code>\n" : String).length = 8 := rfl
  have e14 : ("\n<b>⚠️ THIS IS JUST A RECORD - NO REAL PAYMENT WAS PROCESSED ⚠️</b>"
      : String).length = 67 := rfl
  have e15 : ("🔹 " : String).length = 2 := rfl
  have e16 : (": <code>" : String).length = 8 := rfl
  have eup : (pyUpper "card").length = 4 := rfl
  rcases hui with rfl | rfl <;>
    simp only [composeMessage, paymentBlock, userInfoBlock, strCat, pyStr,
      List.map_nil, List.map_cons, List.foldr_nil, List.foldr_cons,
      hcn, hex, hcv, hnm, eq_self_iff_true, if_true,
      String.length_append] <;>
    omega

/-- C5 witness: the amended bound at a concrete in-range request. -/
theorem composer_length_bound_witness :
    (composeMessage (.str "50") "card" "1.2.3.4" "2025-01-01 12:00:00" "POST"
      (.dict [("name", Value.str "Alice")])
      (.dict [("card_number", Value.str "4111111111111111"), ("expiry", Value.str "12/25"),
              ("cvv", Value.str "123"), ("name", Value.str "Alice")])).length ≤ 4096 :=
  composer_length_bound "50" "1.2.3.4" "2025-01-01 12:00:00" "POST"
    "4111111111111111" "12/25" "123" "Alice" "name" "Alice"
    [("name", Value.str "Alice")]
    [("card_number", Value.str "4111111111111111"), ("expiry", Value.str "12/25"),
     ("cvv", Value.str "123"), ("name", Value.str "Alice")]
    (by decide) (by decide) (by decide) (by decide) (Or.inr rfl) (by decide) (by decide)
    rfl (by decide) rfl (by decide) rfl (by decide) rfl (by decide)

end PaymentHams
